import Mathlib

/-!
Shallow embedding of the WebhookGateway service (src/src/index.ts, first
document): a webhook-to-RabbitMQ bridge with a connection lifecycle
manager (connect / scheduleReconnect / error and close observers), an
exchange assertion helper (`ensureExchange`) and the `/webhook` request
pipeline.

Mutable module state (`connection`, `channel`, `isReconnecting`,
`reconnectAttempts`, `reconnectTimer`) is threaded explicitly through a
`GWState` record.  Timer handles armed via `setTimeout` and not yet fired
or cancelled are tracked in `pendingTimers`; `reconnectTimer` is the
variable that stores the most recently armed handle (it can go stale after
a timer fires, exactly as in the source).  `process.exit(code)` is
modelled by the `exited` field; once set, operations no longer run.
Broker nondeterminism (whether `amqp.connect`, `createChannel`,
`assertExchange` or `publish` succeed or throw) is passed in as explicit
outcome parameters.
-/

namespace WebhookGateway

/-- The process-wide mutable state of the gateway. -/
structure GWState where
  /-- `let connection = null` — the stored connection handle. -/
  connection : Option Nat := none
  /-- `let channel = null` — the stored channel handle. -/
  channel : Option Nat := none
  /-- `let isReconnecting = false`. -/
  isReconnecting : Bool := false
  /-- `let reconnectAttempts = 0`. -/
  reconnectAttempts : Nat := 0
  /-- `let reconnectTimer = null` — the stored timer handle. -/
  reconnectTimer : Option Nat := none
  /-- Handles of timers armed with `setTimeout` and neither fired nor
  cancelled with `clearTimeout`. -/
  pendingTimers : List Nat := []
  /-- Fresh timer-handle supply. -/
  nextTimer : Nat := 0
  /-- Fresh connection/channel-handle supply. -/
  nextHandle : Nat := 0
  /-- Connection handles on which `connection.on('error'/'close', ...)`
  observers have been registered. -/
  observedConns : List Nat := []
  /-- `some code` once `process.exit(code)` has been called. -/
  exited : Option Nat := none
deriving DecidableEq, Repr

/-- The `if (reconnectTimer) { clearTimeout(reconnectTimer); reconnectTimer = null; }`
idiom: cancels the stored timer, if any. -/
def clearReconnectTimer (s : GWState) : GWState :=
  match s.reconnectTimer with
  | none => s
  | some h => { s with reconnectTimer := none, pendingTimers := s.pendingTimers.erase h }

/-- `scheduleReconnect()` (index.ts lines 150-170): returns early if
`isReconnecting`; exits with code 1 if `reconnectAttempts >= MAX_RECONNECT_ATTEMPTS`;
otherwise arms a fresh one-shot timer and stores its handle in
`reconnectTimer` (without cancelling any previously pending timer). -/
def scheduleReconnect (maxAttempts : Nat) (s : GWState) : GWState :=
  if s.exited.isSome then s
  else if s.isReconnecting then s
  else if maxAttempts ≤ s.reconnectAttempts then { s with exited := some 1 }
  else
    { s with reconnectTimer := some s.nextTimer,
             pendingTimers := s.nextTimer :: s.pendingTimers,
             nextTimer := s.nextTimer + 1 }

/-- `handleConnectionError` (lines 125-135): clears the channel handle,
cancels any pending timer, and calls `scheduleReconnect()`. -/
def handleConnectionError (maxAttempts : Nat) (s : GWState) : GWState :=
  if s.exited.isSome then s
  else scheduleReconnect maxAttempts (clearReconnectTimer { s with channel := none })

/-- `handleConnectionClose` (lines 137-148): clears the channel and the
connection handles, cancels any pending timer, and calls `scheduleReconnect()`. -/
def handleConnectionClose (maxAttempts : Nat) (s : GWState) : GWState :=
  if s.exited.isSome then s
  else
    scheduleReconnect maxAttempts
      (clearReconnectTimer { s with channel := none, connection := none })

/-- The observer registered with `channel.on('error', (err) => { console.error(...) })`
(lines 78-80): it only logs; no state is modified. -/
def channelErrorObserver (s : GWState) : GWState := s

/-- The observer registered with `channel.on('close', () => { console.warn(...) })`
(lines 81-83): it only logs; no state is modified. -/
def channelCloseObserver (s : GWState) : GWState := s

/-- Outcome of the awaited broker steps inside `connectRabbitMQ`. -/
inductive BrokerOutcome where
  /-- `amqp.connect(connectionUrl)` throws. -/
  | connectFail
  /-- `amqp.connect` succeeds, `connection.createChannel()` throws. -/
  | channelFail
  /-- Both steps succeed. -/
  | ok
deriving DecidableEq, Repr

/-- The `catch` block of `connectRabbitMQ` (lines 90-122): sets
`isReconnecting = false`, then exits with code 1 when
`reconnectAttempts >= MAX_RECONNECT_ATTEMPTS`, else returns `false`. -/
def connectFailBranch (maxAttempts : Nat) (s : GWState) : GWState × Bool :=
  let s1 := { s with isReconnecting := false }
  if maxAttempts ≤ s1.reconnectAttempts then ({ s1 with exited := some 1 }, false)
  else (s1, false)

/-- `connectRabbitMQ()` (lines 34-123).  Returns early with `false` when a
connect attempt is already in flight.  Otherwise sets `isReconnecting`,
increments `reconnectAttempts`, and runs the try block: a missing
`RABBITMQ_URL` throws; `amqp.connect` assigns `connection` before
`createChannel` can fail; on full success error/close observers are
registered, `isReconnecting` and `reconnectAttempts` are reset and `true`
is returned.  Any throw lands in `connectFailBranch`. -/
def connectRabbitMQ (maxAttempts : Nat) (urlConfigured : Bool)
    (out : BrokerOutcome) (s : GWState) : GWState × Bool :=
  if s.exited.isSome then (s, false)
  else if s.isReconnecting then (s, false)
  else
    let s1 := { s with isReconnecting := true,
                       reconnectAttempts := s.reconnectAttempts + 1 }
    if ¬ urlConfigured then connectFailBranch maxAttempts s1
    else
      match out with
      | .connectFail => connectFailBranch maxAttempts s1
      | .channelFail =>
          -- `connection = await amqp.connect(...)` has already assigned the
          -- new handle when `createChannel` throws.
          let s2 := { s1 with connection := some s1.nextHandle,
                              nextHandle := s1.nextHandle + 1 }
          connectFailBranch maxAttempts s2
      | .ok =>
          let c := s1.nextHandle
          let ch := s1.nextHandle + 1
          ({ s1 with connection := some c,
                     channel := some ch,
                     nextHandle := s1.nextHandle + 2,
                     observedConns := c :: s1.observedConns,
                     isReconnecting := false,
                     reconnectAttempts := 0 }, true)

/-- `ensureExchange(exchangeName)` (lines 172-188), abstracted over the
stored channel and whether the broker accepts the assertion.  Returns the
boolean result paired with the number of broker-level `assertExchange`
calls issued: a missing channel throws before any broker call (caught,
`(false, 0)`); with a channel present exactly one `assertExchange` call is
issued, and a broker rejection is caught and mapped to `(false, 1)`. -/
def ensureExchange (assertOk : Bool) (chan : Option Nat) : Bool × Nat :=
  match chan with
  | none => (false, 0)
  | some _ => (assertOk, 1)

/-! ### JSON values and the webhook request pipeline -/

/-- JSON values, as produced by the JS object literals of the handler. -/
inductive Json where
  | null
  | bool (b : Bool)
  | num (n : Int)
  | str (s : String)
  | arr (elems : List Json)
  | obj (fields : List (String × Json))

/-- Escape a string for JSON output (quotes and backslashes). -/
def jsonEscape (s : String) : String :=
  s.foldl (fun acc c =>
    if c = '\x22' then acc ++ "\\\x22"
    else if c = '\\' then acc ++ "\\\\"
    else acc.push c) ""

mutual

/-- `JSON.stringify` on our JSON values; object fields keep insertion
order, as in JS. -/
def Json.encode : Json → String
  | .null => "null"
  | .bool b => if b then "true" else "false"
  | .num n => toString n
  | .str s => "\x22" ++ jsonEscape s ++ "\x22"
  | .arr xs => "[" ++ encodeElems xs ++ "]"
  | .obj fs => "\x7b" ++ encodeFields fs ++ "\x7d"

/-- Comma-separated encoding of array elements. -/
def encodeElems : List Json → String
  | [] => ""
  | [x] => Json.encode x
  | x :: y :: xs => Json.encode x ++ "," ++ encodeElems (y :: xs)

/-- Comma-separated encoding of object fields. -/
def encodeFields : List (String × Json) → String
  | [] => ""
  | [(k, v)] => "\x22" ++ jsonEscape k ++ "\x22:" ++ Json.encode v
  | (k, v) :: f :: fs =>
      "\x22" ++ jsonEscape k ++ "\x22:" ++ Json.encode v ++ "," ++ encodeFields (f :: fs)

end

/-- An incoming HTTP request as seen by the `/webhook` handler.  Query
parameters are an association list (first binding wins, as for distinct
keys in `req.query`). -/
structure Request where
  query : List (String × String)
  method : String
  body : Json
  headers : List (String × String)
  ip : String
  path : String
  originalUrl : String

/-- `req.query.k`: the first binding of key `k`, if any. -/
def getQ (q : List (String × String)) (k : String) : Option String :=
  (q.find? (fun p => p.1 = k)).map (fun p => p.2)

/-- The token gate `!token || token !== AUTH_TOKEN` (lines 192-198),
with `AUTH_TOKEN` an optional environment value: the request passes only
when the `token` query parameter is present, truthy (non-empty), and
strictly equal to the configured secret.  With no secret configured no
string is strictly equal to `undefined`, so every request fails. -/
def tokenValid (auth : Option String) (token : Option String) : Bool :=
  match token, auth with
  | some t, some a => t ≠ "" && t = a
  | _, _ => false

/-- The message envelope `dataToSend` (lines 235-244). -/
structure WebhookEnvelope where
  timestamp : String
  method : String
  params : List (String × String)
  body : Json
  headers : List (String × String)
  ip : String
  path : String
  originalUrl : String

/-- Build `dataToSend` from the request (lines 231-244): copy the query
parameters, delete `exchange` and `token`, and pick up method, body,
headers, ip, path and original URL, plus the formatted timestamp. -/
def buildEnvelope (req : Request) (ts : String) : WebhookEnvelope :=
  { timestamp := ts
    method := req.method
    params := req.query.filter (fun p => p.1 ≠ "exchange" && p.1 ≠ "token")
    body := req.body
    headers := req.headers
    ip := req.ip
    path := req.path
    originalUrl := req.originalUrl }

/-- The envelope as the JS object literal passed to `JSON.stringify`. -/
def envelopeToJson (e : WebhookEnvelope) : Json :=
  .obj [("timestamp", .str e.timestamp),
        ("method", .str e.method),
        ("params", .obj (e.params.map fun p => (p.1, .str p.2))),
        ("body", e.body),
        ("headers", .obj (e.headers.map fun p => (p.1, .str p.2))),
        ("ip", .str e.ip),
        ("path", .str e.path),
        ("originalUrl", .str e.originalUrl)]

/-- One `channel.publish` call (lines 247-251). -/
structure PublishRecord where
  exchange : String
  routingKey : String
  body : String
  persistent : Bool
  contentType : String
  hasTimestamp : Bool
deriving DecidableEq, Repr

/-- One broker-level `assertExchange` call (lines 179-181). -/
structure AssertRecord where
  name : String
  kind : String
  durable : Bool
deriving DecidableEq, Repr

/-- HTTP responses the `/webhook` handler can produce. -/
inductive WResponse where
  /-- `401 {success:false, error}`. -/
  | unauthorized
  /-- `400 {success:false, error}` — missing `exchange` parameter. -/
  | badRequest
  /-- `503 {success:false, error, reconnectAttempt, maxAttempts}`. -/
  | unavailable (reconnectAttempt : Nat) (maxAttempts : Nat)
  /-- `500 {success:false, error}` — `ensureExchange` returned false. -/
  | exchangeError
  /-- `200 {success:true, message, exchange, timestamp}`. -/
  | ok (exchange : String) (timestamp : String)
  /-- `500 {success:false, error, details}` — the catch handler ran. -/
  | serverError (details : String)
  /-- The process exited before a response was sent. -/
  | noResponse
deriving DecidableEq, Repr

/-- The HTTP status code of a response. -/
def WResponse.status : WResponse → Nat
  | .unauthorized => 401
  | .badRequest => 400
  | .unavailable _ _ => 503
  | .exchangeError => 500
  | .ok _ _ => 200
  | .serverError _ => 500
  | .noResponse => 0

/-- Result of one `/webhook` handler run: response, post-state, and the
broker calls issued. -/
structure HOut where
  resp : WResponse
  state : GWState
  publishes : List PublishRecord
  asserts : List AssertRecord
deriving DecidableEq, Repr

/-- Substring test used for the catch handler's
`error.message.includes(...)` checks. -/
def includesSub (msg sub : String) : Bool :=
  decide (List.IsInfix sub.toList msg.toList)

/-- The `/webhook` handler (lines 190-281), abstracted over configuration
(`auth` = `AUTH_TOKEN`, `maxAttempts`), the broker's reaction to the
assertion (`assertOk`), whether `channel.publish` throws and with what
message (`publishErr`), and the formatted time `ts`.  Checks run in source
order: token, `exchange` parameter, channel availability (with the guarded
opportunistic `scheduleReconnect()`), `ensureExchange`, then envelope
build and publish; a throwing publish lands in the catch handler, which
clears the channel and reschedules when the message mentions a closed
channel or connection. -/
def handleWebhook (auth : Option String) (maxAttempts : Nat) (req : Request)
    (assertOk : Bool) (publishErr : Option String) (ts : String)
    (s : GWState) : HOut :=
  if ¬ tokenValid auth (getQ req.query "token") then
    { resp := .unauthorized, state := s, publishes := [], asserts := [] }
  else if (getQ req.query "exchange").getD "" = "" then
    { resp := .badRequest, state := s, publishes := [], asserts := [] }
  else
    let exchangeName := (getQ req.query "exchange").getD ""
    if s.channel = none then
      let s1 :=
        if ¬ s.isReconnecting ∧ s.reconnectTimer = none then
          scheduleReconnect maxAttempts s
        else s
      if s1.exited.isSome then
        { resp := .noResponse, state := s1, publishes := [], asserts := [] }
      else
        { resp := .unavailable s1.reconnectAttempts maxAttempts,
          state := s1, publishes := [], asserts := [] }
    else
      let asserts := [⟨exchangeName, "fanout", true⟩]
      if ¬ (ensureExchange assertOk s.channel).1 then
        { resp := .exchangeError, state := s, publishes := [], asserts := asserts }
      else
        let msg := (envelopeToJson (buildEnvelope req ts)).encode
        match publishErr with
        | some m =>
            let s1 :=
              if includesSub m "Channel closed" ∨ includesSub m "Connection closed" then
                scheduleReconnect maxAttempts { s with channel := none }
              else s
            { resp := .serverError m, state := s1, publishes := [], asserts := asserts }
        | none =>
            { resp := .ok exchangeName ts, state := s,
              publishes := [⟨exchangeName, "", msg, true, "application/json", true⟩],
              asserts := asserts }

/-- URL construction in `connectRabbitMQ` (lines 51-65): with a truthy
`RABBITMQ_VHOST`, strip a trailing slash from the base URL
(`replace(/\/$/, '')`), prefix the vhost with `/` unless it already starts
with one, and concatenate; otherwise use the base URL unchanged. -/
def buildConnectionUrl (url : String) (vhost : Option String) : String :=
  match vhost with
  | none => url
  | some v =>
      if v = "" then url
      else
        let baseUrl := if url.endsWith "/" then url.dropRight 1 else url
        let vh := if v.startsWith "/" then v else "/" ++ v
        baseUrl ++ vh

/-- Formulated from the spec's words for comparison with the code
(§4.1 `connect()`): "if a virtual host is configured, it is appended to
the base address after stripping any trailing slash and ensuring a single
leading slash on the vhost segment; otherwise the broker's default vhost
is used". -/
def specTargetAddress (base : String) (vhost : Option String) : String :=
  match vhost with
  | none => base
  | some v =>
      if v = "" then base
      else v4_1stripTrailing base ++ v4_1ensureLeading v
where
  /-- "stripping any trailing slash". -/
  v4_1stripTrailing (b : String) : String :=
    if b.endsWith "/" then b.dropRight 1 else b
  /-- "ensuring a single leading slash on the vhost segment". -/
  v4_1ensureLeading (v : String) : String :=
    if v.startsWith "/" then v else "/" ++ v

/-- Invariant "at most one pending reconnect timer, and it is the one the
`reconnectTimer` variable stores". -/
def timerInv (s : GWState) : Bool :=
  match s.pendingTimers, s.reconnectTimer with
  | [], _ => true
  | [t], some r => t = r && t < s.nextTimer
  | _, _ => false

/-! ### Concrete states used by counterexamples and witnesses -/

/-- A reachable state with a pending reconnect timer armed (handle 0) and
no connect attempt in flight. -/
def timerPendingState : GWState :=
  { connection := none, channel := none, isReconnecting := false,
    reconnectAttempts := 1, reconnectTimer := some 0, pendingTimers := [0],
    nextTimer := 1, nextHandle := 0, observedConns := [], exited := none }

/-- A connected state (connection 1, channel 0) with a pending reconnect
timer (handle 0). -/
def connectedTimerState : GWState :=
  { connection := some 1, channel := some 0, isReconnecting := false,
    reconnectAttempts := 0, reconnectTimer := some 0, pendingTimers := [0],
    nextTimer := 1, nextHandle := 2, observedConns := [1], exited := none }

/-- A state in the middle of a connect attempt whose attempt counter has
reached the maximum of 10. -/
def midConnectMaxedState : GWState :=
  { connection := none, channel := none, isReconnecting := true,
    reconnectAttempts := 10, reconnectTimer := none, pendingTimers := [],
    nextTimer := 3, nextHandle := 4, observedConns := [], exited := none }

/-- The initial state of the process. -/
def initialState : GWState := {}

/-- A disconnected state after two failed attempts, with no timer armed. -/
def disconnectedState : GWState := { reconnectAttempts := 2 }

/-- One failed attempt away from the maximum of 10. -/
def nearMaxState : GWState := { reconnectAttempts := 9 }

/-- Attempt counter at the maximum of 10, no attempt in flight. -/
def atMaxState : GWState := { reconnectAttempts := 10 }

/-- A state in which the process has already exited with code 1. -/
def exitedState : GWState := { exited := some 1 }

/-- A webhook request carrying a wrong token. -/
def wrongTokenRequest : Request :=
  { query := [("token", "wrong"), ("exchange", "logs")], method := "POST",
    body := Json.null, headers := [("host", "example.test")], ip := "127.0.0.1",
    path := "/webhook", originalUrl := "/webhook?token=wrong&exchange=logs" }

/-- A correctly authenticated webhook request naming exchange `logs`. -/
def goodRequest : Request :=
  { query := [("token", "s3cr3t"), ("exchange", "logs"), ("id", "42")],
    method := "POST", body := Json.obj [("a", Json.num 1)],
    headers := [("host", "example.test")], ip := "127.0.0.1", path := "/webhook",
    originalUrl := "/webhook?token=s3cr3t&exchange=logs&id=42" }

/-! ### Theorems -/

/-- C1 counterexample: with a connected channel, the second of two
consecutive `ensureExchange` calls does issue a broker round trip — the
two calls together issue two `assertExchange` calls, not at most one, and
the second call's success comes from the broker, not from a cache. -/
theorem c1_counterexample :
    (ensureExchange true (some 0)).1 = true
    ∧ (ensureExchange true (some 0)).2 = 1
    ∧ ¬ ((ensureExchange true (some 0)).2 + (ensureExchange true (some 0)).2 ≤ 1) := by
  decide

/-- C1 (amended): there is no exchange cache in the code; every
`ensureExchange` call made with a channel present issues exactly one
broker-level `assertExchange` call, so two calls in a row issue exactly
two broker calls. -/
theorem c1_each_call_asserts (assertOk : Bool) (ch : Nat) :
    (ensureExchange assertOk (some ch)).2 = 1
    ∧ (ensureExchange assertOk (some ch)).2 + (ensureExchange assertOk (some ch)).2 = 2 := by
  exact ⟨rfl, rfl⟩

/-- C3 counterexample: in a state with a pending reconnect timer and no
connect attempt in flight, `scheduleReconnect()` is not a no-op — it arms
a second timer, after which two timers are pending at once. -/
theorem c3_counterexample :
    timerPendingState.isReconnecting = false
    ∧ timerPendingState.reconnectTimer = some 0
    ∧ timerPendingState.pendingTimers.length = 1
    ∧ scheduleReconnect 10 timerPendingState ≠ timerPendingState
    ∧ (scheduleReconnect 10 timerPendingState).pendingTimers.length = 2 := by
  decide

/-- With the at-most-one-pending-timer invariant, cancelling the stored
timer leaves no pending timer at all. -/
theorem cleared_pending (s : GWState) (hinv : timerInv s = true) :
    (clearReconnectTimer s).pendingTimers = [] := by
  unfold timerInv at hinv
  unfold clearReconnectTimer
  rcases hp : s.pendingTimers with _ | ⟨t, _ | ⟨u, l⟩⟩ <;>
    rcases hr : s.reconnectTimer with _ | r <;>
    simp_all [List.erase_cons]

/-- Starting from a state with no pending timer, `scheduleReconnect()`
re-establishes the at-most-one-pending-timer invariant. -/
theorem timerInv_schedule_of_cleared (maxAttempts : Nat) (s : GWState)
    (h : s.pendingTimers = []) :
    timerInv (scheduleReconnect maxAttempts s) = true := by
  unfold scheduleReconnect
  by_cases h1 : s.exited.isSome
  · simp only [if_pos h1]
    simp [timerInv, h]
  · by_cases h2 : s.isReconnecting
    · simp only [if_neg h1, if_pos h2]
      simp [timerInv, h]
    · by_cases h3 : maxAttempts ≤ s.reconnectAttempts
      · simp only [if_neg h1, if_neg h2, if_pos h3]
        simp [timerInv, h]
      · simp only [if_neg h1, if_neg h2, if_neg h3]
        simp [timerInv, h]

/-- C3 (amended): `scheduleReconnect()` is a no-op only when
`isReconnecting` is true (it performs no pending-timer check of its own);
a single call arms at most one new timer; and the at-most-one-pending-timer
invariant is maintained across connection error/close events because those
handlers cancel any pending timer before rescheduling. -/
theorem c3_schedule_and_handlers (maxAttempts : Nat) (s sinv : GWState)
    (hre : s.isReconnecting = true)
    (hex : sinv.exited = none) (hinv : timerInv sinv = true) :
    scheduleReconnect maxAttempts s = s
    ∧ (scheduleReconnect maxAttempts sinv).pendingTimers.length ≤
        sinv.pendingTimers.length + 1
    ∧ timerInv (handleConnectionError maxAttempts sinv) = true
    ∧ timerInv (handleConnectionClose maxAttempts sinv) = true := by
  refine ⟨?_, ?_, ?_, ?_⟩
  · simp [scheduleReconnect, hre]
  · by_cases h1 : sinv.exited.isSome
    · simp [scheduleReconnect, h1]
    · by_cases h2 : sinv.isReconnecting
      · simp [scheduleReconnect, h1, h2]
      · by_cases h3 : maxAttempts ≤ sinv.reconnectAttempts
        · simp [scheduleReconnect, h1, h2, h3]
        · simp [scheduleReconnect, h1, h2, h3]
  · unfold handleConnectionError
    rw [if_neg (by simp [hex])]
    exact timerInv_schedule_of_cleared _ _ (cleared_pending _ hinv)
  · unfold handleConnectionClose
    rw [if_neg (by simp [hex])]
    exact timerInv_schedule_of_cleared _ _ (cleared_pending _ hinv)

/-- C2 counterexample: in a connected state with a pending reconnect
timer, a channel-error event leaves the state completely unchanged — the
registered channel-error observer only logs, so it neither clears the
channel handle, nor cancels the pending timer, nor schedules a reconnect. -/
theorem c2_counterexample :
    channelErrorObserver connectedTimerState = connectedTimerState
    ∧ (channelErrorObserver connectedTimerState).channel = some 0
    ∧ (channelErrorObserver connectedTimerState).pendingTimers = [0] := by
  decide

/-- Fields of the state untouched by `clearReconnectTimer`. -/
theorem clearReconnectTimer_fields (s : GWState) :
    (clearReconnectTimer s).channel = s.channel
    ∧ (clearReconnectTimer s).connection = s.connection
    ∧ (clearReconnectTimer s).exited = s.exited
    ∧ (clearReconnectTimer s).isReconnecting = s.isReconnecting
    ∧ (clearReconnectTimer s).reconnectAttempts = s.reconnectAttempts
    ∧ (clearReconnectTimer s).nextTimer = s.nextTimer := by
  unfold clearReconnectTimer
  rcases s.reconnectTimer with _ | t <;> simp

/-- When no exit has been requested, no connect attempt is in flight and
the attempt budget is not exhausted, `scheduleReconnect` arms a fresh
timer. -/
theorem scheduleReconnect_arms (maxAttempts : Nat) (s : GWState)
    (hex : s.exited = none) (hnr : s.isReconnecting = false)
    (hlt : s.reconnectAttempts < maxAttempts) :
    scheduleReconnect maxAttempts s =
      { s with reconnectTimer := some s.nextTimer,
               pendingTimers := s.nextTimer :: s.pendingTimers,
               nextTimer := s.nextTimer + 1 } := by
  unfold scheduleReconnect
  rw [if_neg (by simp [hex]), if_neg (by simp [hnr]),
      if_neg (Nat.not_le.mpr hlt)]

/-- C2 (amended): on a connection-error event the registered observer
clears the channel handle, cancels any pending reconnect timer and calls
`scheduleReconnect()` (arming a fresh timer); the connection-close
observer does the same and additionally clears the connection handle.
The channel-error and channel-close observers only log and change no
state, and there is no ExchangeCache in the code to clear. -/
theorem c2_connection_observers (maxAttempts : Nat) (s : GWState)
    (hex : s.exited = none) (hnr : s.isReconnecting = false)
    (hlt : s.reconnectAttempts < maxAttempts)
    (hnd : s.pendingTimers.Nodup)
    (hwt : ∀ t, s.reconnectTimer = some t → t < s.nextTimer) :
    ((handleConnectionError maxAttempts s).channel = none
      ∧ (handleConnectionError maxAttempts s).connection = s.connection
      ∧ (handleConnectionError maxAttempts s).reconnectTimer = some s.nextTimer
      ∧ (∀ t, s.reconnectTimer = some t →
          t ∉ (handleConnectionError maxAttempts s).pendingTimers))
    ∧ ((handleConnectionClose maxAttempts s).channel = none
      ∧ (handleConnectionClose maxAttempts s).connection = none
      ∧ (handleConnectionClose maxAttempts s).reconnectTimer = some s.nextTimer
      ∧ (∀ t, s.reconnectTimer = some t →
          t ∉ (handleConnectionClose maxAttempts s).pendingTimers))
    ∧ channelErrorObserver s = s ∧ channelCloseObserver s = s := by
  have herr : handleConnectionError maxAttempts s =
      scheduleReconnect maxAttempts (clearReconnectTimer { s with channel := none }) := by
    unfold handleConnectionError
    rw [if_neg (by simp [hex])]
  have hcls : handleConnectionClose maxAttempts s =
      scheduleReconnect maxAttempts
        (clearReconnectTimer { s with channel := none, connection := none }) := by
    unfold handleConnectionClose
    rw [if_neg (by simp [hex])]
  rcases hr : s.reconnectTimer with _ | t0
  · have hc1 : clearReconnectTimer { s with channel := none } =
        { s with channel := none } := by
      unfold clearReconnectTimer
      simp [hr]
    have hc2 : clearReconnectTimer { s with channel := none, connection := none } =
        { s with channel := none, connection := none } := by
      unfold clearReconnectTimer
      simp [hr]
    rw [herr, hcls, hc1, hc2,
        scheduleReconnect_arms maxAttempts { s with channel := none } hex hnr hlt,
        scheduleReconnect_arms maxAttempts { s with channel := none, connection := none }
          hex hnr hlt]
    refine ⟨⟨rfl, rfl, rfl, ?_⟩, ⟨rfl, rfl, rfl, ?_⟩, rfl, rfl⟩ <;>
      · intro t ht
        exact absurd ht (by simp)
  · have ht0 : t0 < s.nextTimer := hwt t0 hr
    have hc1 : clearReconnectTimer { s with channel := none } =
        { s with channel := none, reconnectTimer := none,
                 pendingTimers := s.pendingTimers.erase t0 } := by
      unfold clearReconnectTimer
      simp [hr]
    have hc2 : clearReconnectTimer { s with channel := none, connection := none } =
        { s with channel := none, connection := none, reconnectTimer := none,
                 pendingTimers := s.pendingTimers.erase t0 } := by
      unfold clearReconnectTimer
      simp [hr]
    rw [herr, hcls, hc1, hc2,
        scheduleReconnect_arms maxAttempts
          { s with channel := none, reconnectTimer := none,
                   pendingTimers := s.pendingTimers.erase t0 } hex hnr hlt,
        scheduleReconnect_arms maxAttempts
          { s with channel := none, connection := none, reconnectTimer := none,
                   pendingTimers := s.pendingTimers.erase t0 } hex hnr hlt]
    refine ⟨⟨rfl, rfl, rfl, ?_⟩, ⟨rfl, rfl, rfl, ?_⟩, rfl, rfl⟩ <;>
      · intro t ht
        cases ht
        simp only [List.mem_cons]
        rintro (h | h)
        · exact absurd h (Nat.ne_of_lt ht0)
        · exact hnd.not_mem_erase h

/-- C4 counterexample: `scheduleReconnect()` invoked with the attempt
counter at the maximum while a connect attempt is in flight does not
terminate the process — the `isReconnecting` guard returns first and the
exit code stays unset. -/
theorem c4_counterexample :
    10 ≤ midConnectMaxedState.reconnectAttempts
    ∧ scheduleReconnect 10 midConnectMaxedState = midConnectMaxedState
    ∧ (scheduleReconnect 10 midConnectMaxedState).exited = none := by
  decide

/-- Every failing run of `connectRabbitMQ` funnels into `connectFailBranch`,
with the attempt counter incremented and (for a channel-creation failure)
the fresh connection handle already assigned. -/
theorem connectRabbitMQ_fail_cases (maxAttempts : Nat) (urlConfigured : Bool)
    (out : BrokerOutcome) (s : GWState)
    (hex : s.exited = none) (hnr : s.isReconnecting = false)
    (hfail : urlConfigured = false ∨ out ≠ BrokerOutcome.ok) :
    connectRabbitMQ maxAttempts urlConfigured out s =
      connectFailBranch maxAttempts
        (if urlConfigured ∧ out = BrokerOutcome.channelFail then
          { s with isReconnecting := true,
                   reconnectAttempts := s.reconnectAttempts + 1,
                   connection := some s.nextHandle, nextHandle := s.nextHandle + 1 }
         else
          { s with isReconnecting := true,
                   reconnectAttempts := s.reconnectAttempts + 1 }) := by
  unfold connectRabbitMQ
  rw [if_neg (by simp [hex]), if_neg (by simp [hnr])]
  by_cases hu : urlConfigured
  · rw [if_neg (by simp [hu])]
    cases out with
    | connectFail => simp [hu]
    | channelFail => simp [hu]
    | ok => exact absurd rfl (hfail.resolve_left (by simp [hu]))
  · rw [if_pos (by simp [hu])]
    simp [hu]

/-- C4 (amended): after a failed connect attempt that brings the attempt
counter to the maximum, the process exits with code 1 and no timer is
scheduled; `scheduleReconnect()` invoked with the counter at the maximum
and no connect attempt in flight also exits with code 1 scheduling
nothing; and once the process has exited nothing further ever runs, so no
further reconnect is ever scheduled. -/
theorem c4_exhaustion_exits (maxAttempts : Nat) (urlConfigured : Bool)
    (out : BrokerOutcome) (s t u : GWState)
    (hex : s.exited = none) (hnr : s.isReconnecting = false)
    (hfail : urlConfigured = false ∨ out ≠ BrokerOutcome.ok)
    (hmax : maxAttempts ≤ s.reconnectAttempts + 1)
    (htex : t.exited = none) (htnr : t.isReconnecting = false)
    (htmax : maxAttempts ≤ t.reconnectAttempts)
    (huex : u.exited = some 1) :
    ((connectRabbitMQ maxAttempts urlConfigured out s).1.exited = some 1
      ∧ (connectRabbitMQ maxAttempts urlConfigured out s).1.pendingTimers = s.pendingTimers
      ∧ (connectRabbitMQ maxAttempts urlConfigured out s).2 = false)
    ∧ scheduleReconnect maxAttempts t = { t with exited := some 1 }
    ∧ scheduleReconnect maxAttempts u = u
    ∧ handleConnectionError maxAttempts u = u
    ∧ handleConnectionClose maxAttempts u = u
    ∧ (connectRabbitMQ maxAttempts urlConfigured out u).1 = u := by
  refine ⟨?_, ?_, ?_, ?_, ?_, ?_⟩
  · rw [connectRabbitMQ_fail_cases maxAttempts urlConfigured out s hex hnr hfail]
    unfold connectFailBranch
    by_cases hcase : urlConfigured ∧ out = BrokerOutcome.channelFail
    · rw [if_pos hcase, if_pos (show maxAttempts ≤ s.reconnectAttempts + 1 from hmax)]
      exact ⟨rfl, rfl, rfl⟩
    · rw [if_neg hcase, if_pos (show maxAttempts ≤ s.reconnectAttempts + 1 from hmax)]
      exact ⟨rfl, rfl, rfl⟩
  · unfold scheduleReconnect
    rw [if_neg (by simp [htex]), if_neg (by simp [htnr]), if_pos htmax]
  · unfold scheduleReconnect
    rw [if_pos (by simp [huex])]
  · unfold handleConnectionError
    rw [if_pos (by simp [huex])]
  · unfold handleConnectionClose
    rw [if_pos (by simp [huex])]
  · unfold connectRabbitMQ
    rw [if_pos (by simp [huex])]

/-- C10: a failed `connectRabbitMQ` run does not roll back partially
established state.  When opening the connection succeeds but creating the
channel fails, the call returns `false`, the new connection handle stays
stored with no error/close observers registered on it, the old channel
value and the timer state are untouched, only `isReconnecting` is reset,
the incremented attempt counter is kept, and the process exits exactly
when that counter has reached the maximum. -/
theorem c10_no_rollback (maxAttempts : Nat) (s : GWState)
    (hex : s.exited = none) (hnr : s.isReconnecting = false) :
    (connectRabbitMQ maxAttempts true BrokerOutcome.channelFail s).2 = false
    ∧ (connectRabbitMQ maxAttempts true BrokerOutcome.channelFail s).1.connection
        = some s.nextHandle
    ∧ (connectRabbitMQ maxAttempts true BrokerOutcome.channelFail s).1.channel = s.channel
    ∧ (connectRabbitMQ maxAttempts true BrokerOutcome.channelFail s).1.observedConns
        = s.observedConns
    ∧ (connectRabbitMQ maxAttempts true BrokerOutcome.channelFail s).1.isReconnecting = false
    ∧ (connectRabbitMQ maxAttempts true BrokerOutcome.channelFail s).1.reconnectAttempts
        = s.reconnectAttempts + 1
    ∧ (connectRabbitMQ maxAttempts true BrokerOutcome.channelFail s).1.pendingTimers
        = s.pendingTimers
    ∧ (connectRabbitMQ maxAttempts true BrokerOutcome.channelFail s).1.reconnectTimer
        = s.reconnectTimer
    ∧ (connectRabbitMQ maxAttempts true BrokerOutcome.channelFail s).1.exited
        = (if maxAttempts ≤ s.reconnectAttempts + 1 then some 1 else none) := by
  rw [connectRabbitMQ_fail_cases maxAttempts true BrokerOutcome.channelFail s hex hnr
        (Or.inr (by simp))]
  unfold connectFailBranch
  by_cases hm : maxAttempts ≤ s.reconnectAttempts + 1
  · simp [hm]
  · simp [hm, hex]

/-- C5: a webhook request whose token is absent or not exactly the
configured secret — including when no secret is configured at all, since
no string is strictly equal to an unset secret — is answered with the 401
error response, no publish call and no exchange-assertion call are made,
the state is untouched, and the response is the same for every connection
state, so connectivity is not observable to unauthenticated callers. -/
theorem c5_invalid_token_uniform_401 (auth : Option String) (maxAttempts : Nat)
    (req : Request) (assertOk : Bool) (publishErr : Option String) (ts : String)
    (s sOther : GWState)
    (h : tokenValid auth (getQ req.query "token") = false) :
    handleWebhook auth maxAttempts req assertOk publishErr ts s =
      { resp := .unauthorized, state := s, publishes := [], asserts := [] }
    ∧ (handleWebhook auth maxAttempts req assertOk publishErr ts s).resp =
        (handleWebhook auth maxAttempts req assertOk publishErr ts sOther).resp
    ∧ (∀ q, tokenValid none q = false) := by
  have key : ∀ t : GWState, handleWebhook auth maxAttempts req assertOk publishErr ts t =
      { resp := .unauthorized, state := t, publishes := [], asserts := [] } := by
    intro t
    unfold handleWebhook
    rw [if_pos (by simp [h])]
  refine ⟨key s, by rw [key s, key sOther], ?_⟩
  intro q
  cases q <;> rfl

/-- C6: an authenticated webhook request naming a non-empty exchange that
arrives while no channel is stored is answered 503 with the current
attempt counter and the configured maximum, performs no publish and no
exchange assertion, calls `scheduleReconnect()` exactly when no reconnect
is in flight and no timer handle is stored (arming one fresh timer), and
leaves the state untouched otherwise — in particular at most one new
reconnect timer is created. -/
theorem c6_no_channel_503 (auth : Option String) (maxAttempts : Nat) (req : Request)
    (assertOk : Bool) (publishErr : Option String) (ts : String) (s : GWState)
    (ex : String)
    (ht : tokenValid auth (getQ req.query "token") = true)
    (hx : getQ req.query "exchange" = some ex) (hx0 : ex ≠ "")
    (hch : s.channel = none) (hexi : s.exited = none)
    (hlt : s.reconnectAttempts < maxAttempts) :
    (handleWebhook auth maxAttempts req assertOk publishErr ts s).resp =
      WResponse.unavailable s.reconnectAttempts maxAttempts
    ∧ (handleWebhook auth maxAttempts req assertOk publishErr ts s).publishes = []
    ∧ (handleWebhook auth maxAttempts req assertOk publishErr ts s).asserts = []
    ∧ (¬ s.isReconnecting ∧ s.reconnectTimer = none →
        (handleWebhook auth maxAttempts req assertOk publishErr ts s).state =
          { s with reconnectTimer := some s.nextTimer,
                   pendingTimers := s.nextTimer :: s.pendingTimers,
                   nextTimer := s.nextTimer + 1 })
    ∧ (¬ (¬ s.isReconnecting ∧ s.reconnectTimer = none) →
        (handleWebhook auth maxAttempts req assertOk publishErr ts s).state = s)
    ∧ (handleWebhook auth maxAttempts req assertOk publishErr ts s).state.pendingTimers.length
        ≤ s.pendingTimers.length + 1 := by
  by_cases hg : ¬ s.isReconnecting ∧ s.reconnectTimer = none
  · have hnr' : s.isReconnecting = false := by simpa using hg.1
    have hw : handleWebhook auth maxAttempts req assertOk publishErr ts s =
        { resp := .unavailable s.reconnectAttempts maxAttempts,
          state := { s with reconnectTimer := some s.nextTimer,
                            pendingTimers := s.nextTimer :: s.pendingTimers,
                            nextTimer := s.nextTimer + 1 },
          publishes := [], asserts := [] } := by
      unfold handleWebhook
      rw [if_neg (by simp [ht]), if_neg (by simp [hx, hx0]), if_pos hch, if_pos hg,
          scheduleReconnect_arms maxAttempts s hexi hnr' hlt]
      simp [hexi]
    rw [hw]
    exact ⟨rfl, rfl, rfl, fun _ => rfl, fun hcon => absurd hg hcon, by simp⟩
  · have hw : handleWebhook auth maxAttempts req assertOk publishErr ts s =
        { resp := .unavailable s.reconnectAttempts maxAttempts,
          state := s, publishes := [], asserts := [] } := by
      unfold handleWebhook
      rw [if_neg (by simp [ht]), if_neg (by simp [hx, hx0]), if_pos hch, if_neg hg]
      simp [hexi]
    rw [hw]
    exact ⟨rfl, rfl, rfl, fun hcon => absurd hcon hg, fun _ => rfl, by simp⟩

/-- C7: a successfully processed webhook request publishes exactly one
message: the exchange is asserted as type `fanout` with `durable = true`,
the publish goes to the named exchange with the empty routing key, marked
persistent with content type `application/json` and a publish-time
timestamp property, and the body is the JSON encoding of the envelope
holding the formatted timestamp, the request method, all query parameters
except `exchange` and `token`, the body, the headers, the client address,
the path, and the full original URL. -/
theorem c7_success_single_publish (auth : Option String) (maxAttempts : Nat)
    (req : Request) (ts : String) (s : GWState) (ch : Nat) (ex : String)
    (ht : tokenValid auth (getQ req.query "token") = true)
    (hx : getQ req.query "exchange" = some ex) (hx0 : ex ≠ "")
    (hch : s.channel = some ch) :
    handleWebhook auth maxAttempts req true none ts s =
      { resp := .ok ex ts, state := s,
        publishes := [{ exchange := ex, routingKey := "",
                        body := (envelopeToJson (buildEnvelope req ts)).encode,
                        persistent := true, contentType := "application/json",
                        hasTimestamp := true }],
        asserts := [{ name := ex, kind := "fanout", durable := true }] }
    ∧ buildEnvelope req ts =
        { timestamp := ts, method := req.method,
          params := req.query.filter (fun p => p.1 ≠ "exchange" && p.1 ≠ "token"),
          body := req.body, headers := req.headers, ip := req.ip,
          path := req.path, originalUrl := req.originalUrl } := by
  refine ⟨?_, rfl⟩
  unfold handleWebhook
  rw [if_neg (by simp [ht]), if_neg (by simp [hx, hx0]), if_neg (by simp [hch]),
      if_neg (by simp [ensureExchange, hch])]
  simp [hx]

/-- C9: `ensureExchange` never throws — an absent channel and a broker
rejection are both mapped to the boolean result `false` (with zero and
one broker call respectively); the webhook pipeline turns that `false`
into the uniform 500 `exchangeError` response without touching the state;
and the catch handler's channel-closed recovery branch (`serverError`) can
only be produced by a publish-step exception after `ensureExchange`
returned `true`, never by an assertion failure. -/
theorem c9_ensure_maps_failures (auth : Option String) (maxAttempts : Nat)
    (req : Request) (assertOk : Bool) (publishErr : Option String) (ts : String)
    (s : GWState) (c : Nat) (ex : String)
    (ht : tokenValid auth (getQ req.query "token") = true)
    (hx : getQ req.query "exchange" = some ex) (hx0 : ex ≠ "")
    (hch : s.channel = some c) :
    ensureExchange assertOk none = (false, 0)
    ∧ ensureExchange false (some c) = (false, 1)
    ∧ handleWebhook auth maxAttempts req false publishErr ts s =
        { resp := .exchangeError, state := s, publishes := [],
          asserts := [⟨ex, "fanout", true⟩] }
    ∧ (∀ m, (handleWebhook auth maxAttempts req assertOk publishErr ts s).resp =
          .serverError m → assertOk = true ∧ publishErr = some m) := by
  have hfail : handleWebhook auth maxAttempts req false publishErr ts s =
      { resp := .exchangeError, state := s, publishes := [],
        asserts := [⟨ex, "fanout", true⟩] } := by
    unfold handleWebhook
    rw [if_neg (by simp [ht]), if_neg (by simp [hx, hx0]), if_neg (by simp [hch]),
        if_pos (by simp [ensureExchange, hch])]
    simp [hx]
  have hok : handleWebhook auth maxAttempts req true none ts s =
      { resp := .ok ex ts, state := s,
        publishes := [{ exchange := ex, routingKey := "",
                        body := (envelopeToJson (buildEnvelope req ts)).encode,
                        persistent := true, contentType := "application/json",
                        hasTimestamp := true }],
        asserts := [⟨ex, "fanout", true⟩] } := by
    unfold handleWebhook
    rw [if_neg (by simp [ht]), if_neg (by simp [hx, hx0]), if_neg (by simp [hch]),
        if_neg (by simp [ensureExchange, hch])]
    simp [hx]
  have hsome : ∀ m', handleWebhook auth maxAttempts req true (some m') ts s =
      { resp := .serverError m',
        state := if includesSub m' "Channel closed" ∨ includesSub m' "Connection closed" then
            scheduleReconnect maxAttempts { s with channel := none }
          else s,
        publishes := [], asserts := [⟨ex, "fanout", true⟩] } := by
    intro m'
    unfold handleWebhook
    rw [if_neg (by simp [ht]), if_neg (by simp [hx, hx0]), if_neg (by simp [hch]),
        if_neg (by simp [ensureExchange, hch])]
    simp [hx]
  refine ⟨rfl, rfl, hfail, ?_⟩
  intro m hm
  cases assertOk with
  | false =>
      rw [hfail] at hm
      exact absurd hm (by simp)
  | true =>
      cases publishErr with
      | none =>
          rw [hok] at hm
          exact absurd hm (by simp)
      | some m' =>
          rw [hsome m'] at hm
          simp only [WResponse.serverError.injEq] at hm
          exact ⟨rfl, by rw [hm]⟩

/-- C8: with a configured (truthy) virtual host, the connection URL is the
base address with a trailing slash stripped, concatenated with the vhost
segment, to which a leading slash is added exactly when the vhost does not
already start with one; with no virtual host (or an empty, falsy one) the
base address is used unchanged.  This coincides with the address
construction as the spec words it. -/
theorem c8_connection_url (url v : String) :
    buildConnectionUrl url none = url
    ∧ buildConnectionUrl url (some "") = url
    ∧ buildConnectionUrl url (some v) =
        (if v = "" then url
         else (if url.endsWith "/" then url.dropRight 1 else url) ++
              (if v.startsWith "/" then v else "/" ++ v))
    ∧ buildConnectionUrl url (some v) = specTargetAddress url (some v)
    ∧ buildConnectionUrl url none = specTargetAddress url none := by
  refine ⟨rfl, by simp [buildConnectionUrl], rfl, ?_, rfl⟩
  unfold buildConnectionUrl specTargetAddress
  rfl

/-- Witness for `c2_connection_observers` at a concrete state with a
pending timer. -/
theorem c2_connection_observers_witness :
    (handleConnectionError 10 timerPendingState).channel = none
    ∧ (handleConnectionClose 10 timerPendingState).connection = none
    ∧ channelErrorObserver timerPendingState = timerPendingState := by
  have h := c2_connection_observers 10 timerPendingState rfl rfl (by decide) (by decide)
    (fun t ht => by simp [timerPendingState] at ht ⊢; omega)
  exact ⟨h.1.1, h.2.1.2.1, h.2.2.1⟩

/-- Witness for `c3_schedule_and_handlers` at concrete states. -/
theorem c3_schedule_and_handlers_witness :
    scheduleReconnect 10 midConnectMaxedState = midConnectMaxedState
    ∧ timerInv (handleConnectionError 10 timerPendingState) = true := by
  have h := c3_schedule_and_handlers 10 midConnectMaxedState timerPendingState rfl rfl
    (by decide)
  exact ⟨h.1, h.2.2.1⟩

/-- Witness for `c4_exhaustion_exits` at concrete states. -/
theorem c4_exhaustion_exits_witness :
    (connectRabbitMQ 10 true BrokerOutcome.connectFail nearMaxState).1.exited = some 1
    ∧ scheduleReconnect 10 atMaxState = { atMaxState with exited := some 1 }
    ∧ scheduleReconnect 10 exitedState = exitedState := by
  have h := c4_exhaustion_exits 10 true BrokerOutcome.connectFail nearMaxState atMaxState
    exitedState rfl rfl (Or.inr (by decide)) (by decide) rfl rfl (by decide) rfl
  exact ⟨h.1.1, h.2.1, h.2.2.1⟩

/-- Witness for `c5_invalid_token_uniform_401` at a concrete request with
a wrong token against a connected state. -/
theorem c5_invalid_token_uniform_401_witness :
    handleWebhook (some "s3cr3t") 10 wrongTokenRequest true none
        "2024-01-01T00:00:00.000Z" connectedTimerState =
      { resp := .unauthorized, state := connectedTimerState,
        publishes := [], asserts := [] } :=
  (c5_invalid_token_uniform_401 (some "s3cr3t") 10 wrongTokenRequest true none
      "2024-01-01T00:00:00.000Z" connectedTimerState initialState (by decide)).1

/-- Witness for `c6_no_channel_503` at a concrete request against a
disconnected state. -/
theorem c6_no_channel_503_witness :
    (handleWebhook (some "s3cr3t") 10 goodRequest true none "ts" disconnectedState).resp =
      WResponse.unavailable 2 10
    ∧ (handleWebhook (some "s3cr3t") 10 goodRequest true none "ts"
        disconnectedState).publishes = []
    ∧ (handleWebhook (some "s3cr3t") 10 goodRequest true none "ts"
        disconnectedState).asserts = [] := by
  have h := c6_no_channel_503 (some "s3cr3t") 10 goodRequest true none "ts"
    disconnectedState "logs" (by decide) (by decide) (by decide) rfl rfl (by decide)
  exact ⟨h.1, h.2.1, h.2.2.1⟩

/-- Witness for `c7_success_single_publish` at a concrete request against
a connected state. -/
theorem c7_success_single_publish_witness :
    (handleWebhook (some "s3cr3t") 10 goodRequest true none "ts" connectedTimerState).resp =
      WResponse.ok "logs" "ts"
    ∧ (handleWebhook (some "s3cr3t") 10 goodRequest true none "ts"
        connectedTimerState).publishes.length = 1 := by
  have h := c7_success_single_publish (some "s3cr3t") 10 goodRequest "ts"
    connectedTimerState 0 "logs" (by decide) (by decide) (by decide) rfl
  rw [h.1]
  exact ⟨rfl, rfl⟩

/-- Witness for `c9_ensure_maps_failures` at a concrete request with a
failing exchange assertion. -/
theorem c9_ensure_maps_failures_witness :
    ensureExchange false (some 0) = (false, 1)
    ∧ handleWebhook (some "s3cr3t") 10 goodRequest false none "ts" connectedTimerState =
        { resp := WResponse.exchangeError, state := connectedTimerState, publishes := [],
          asserts := [⟨"logs", "fanout", true⟩] } := by
  have h := c9_ensure_maps_failures (some "s3cr3t") 10 goodRequest false none "ts"
    connectedTimerState 0 "logs" (by decide) (by decide) (by decide) rfl
  exact ⟨h.2.1, h.2.2.1⟩

/-- Witness for `c10_no_rollback` at the initial state. -/
theorem c10_no_rollback_witness :
    (connectRabbitMQ 10 true BrokerOutcome.channelFail initialState).2 = false
    ∧ (connectRabbitMQ 10 true BrokerOutcome.channelFail initialState).1.connection = some 0
    ∧ (connectRabbitMQ 10 true BrokerOutcome.channelFail initialState).1.observedConns = [] := by
  have h := c10_no_rollback 10 initialState rfl rfl
  exact ⟨h.1, h.2.1, h.2.2.2.1⟩

end WebhookGateway
